import Mathlib

/-!
Verification of the kafka-gcp CLI core (command execution & configuration
framework) against its specification.

Shallow embedding of:
* `CommandResult` (src/kafka_cli/core/commands/base.py)
* `ErrorHandler` and the error taxonomy (src/kafka_cli/core/errors.py)
* `ConfigManager` profile/config store (src/kafka_cli/core/config_manager.py)
* the non-interactive branches of the prompt strategies
  (src/kafka_cli/core/interactive.py)

Python dictionaries are embedded as association lists over `String` keys,
machine state (profile files, the global config document) as explicit
record state, and Python exceptions as `Except` / explicit outcome types.
-/

set_option autoImplicit false

/-! ## CommandResult (src/kafka_cli/core/commands/base.py)

The Python class stores three instance attributes: `success : bool`,
`value : Optional[T]`, `error : Optional[str]`.  The attribute `error` is
named `errMsg` here because in Lean the field would clash with the static
constructor `CommandResult.error`. -/

structure CommandResult (T : Type) where
  success : Bool
  value : Option T
  errMsg : Option String
deriving DecidableEq

/-- Embeds `CommandResult.ok(value=None)`: a successful result. -/
def CommandResult.ok {T : Type} (value : Option T) : CommandResult T :=
  ⟨true, value, none⟩

/-- Embeds `CommandResult.error(error_message)`: an error result (value is left `None`). -/
def CommandResult.error {T : Type} (error_message : String) : CommandResult T :=
  ⟨false, none, some error_message⟩

/-- Python `s or d` for an optional string `s`: `None` and `""` are falsy. -/
def strOr (s : Option String) (d : String) : String :=
  match s with
  | some m => if m.isEmpty then d else m
  | none => d

/-- Embeds `unwrap`: raises `CommandError(self.error or "Unknown error")` when not
successful, `CommandError("Result value is None")` when the value is absent,
else returns the value.  The raised `CommandError` is embedded as the
`Except.error` carrying its message. -/
def CommandResult.unwrap {T : Type} (r : CommandResult T) : Except String T :=
  match r.success with
  | false => Except.error (strOr r.errMsg "Unknown error")
  | true =>
    match r.value with
    | none => Except.error "Result value is None"
    | some v => Except.ok v

/-- Embeds `unwrap_or(default)`: the value when successful and present, else the default. -/
def CommandResult.unwrapOr {T : Type} (r : CommandResult T) (default : T) : T :=
  match r.success, r.value with
  | true, some v => v
  | _, _ => default

/-- Embeds `map(func)`: when successful with a present value, apply `func` — which,
being a Python callable, may return a value (possibly `None`) or raise; an
exception is caught and turned into `CommandResult.error(str(e))`.  Otherwise
the code returns `CommandResult(self.success, error=self.error)` (value dropped). -/
def CommandResult.map {T U : Type} (r : CommandResult T)
    (func : T → Except String (Option U)) : CommandResult U :=
  match r.success, r.value with
  | true, some v =>
    match func v with
    | Except.ok u => CommandResult.ok u
    | Except.error e => CommandResult.error e
  | _, _ => ⟨r.success, none, r.errMsg⟩

/-- C2: `ok(v).map(f)` equals `ok(f(v))` when `f` does not raise, equals
`error(str(e))` when `f` raises `e` (so `map` never propagates the
exception: its result is always a `CommandResult`), and `map` passes an
`Err` result through unchanged. -/
theorem commandResult_map_spec {T U : Type} (v : T)
    (f : T → Except String (Option U)) (x : Option U) (emsg m : String) :
    (f v = Except.ok x → (CommandResult.ok (some v)).map f = CommandResult.ok x)
    ∧ (f v = Except.error emsg →
        (CommandResult.ok (some v)).map f = CommandResult.error emsg)
    ∧ (CommandResult.error m : CommandResult T).map f = CommandResult.error m := by
  refine ⟨fun h => ?_, fun h => ?_, ?_⟩
  · simp [CommandResult.map, CommandResult.ok, h]
  · simp [CommandResult.map, CommandResult.ok, h]
  · simp [CommandResult.map, CommandResult.error]

/-- Witness for C2 at concrete inputs: a non-raising function and a raising one. -/
theorem commandResult_map_spec_witness :
    (CommandResult.ok (some 1)).map (fun n => Except.ok (some (n + 1)))
        = CommandResult.ok (some 2)
    ∧ (CommandResult.ok (some 1)).map
        (fun _ => (Except.error "boom" : Except String (Option Nat)))
        = CommandResult.error "boom" :=
  ⟨(commandResult_map_spec 1 (fun n => Except.ok (some (n + 1))) (some 2) "e" "m").1 rfl,
   (commandResult_map_spec 1 (fun _ => Except.error "boom") none "boom" "m").2.1 rfl⟩

/-- C3: `error(m).unwrap()` always fails (raises a command error), and
`ok(v).unwrap()` returns `v` for every value `v`. -/
theorem commandResult_unwrap_spec {T : Type} (m : String) (v : T) :
    (∃ msg, (CommandResult.error m : CommandResult T).unwrap = Except.error msg)
    ∧ (CommandResult.ok (some v)).unwrap = Except.ok v :=
  ⟨⟨strOr (some m) "Unknown error", rfl⟩, rfl⟩

/-- C4 counterexample: `CommandResult.error("")` is constructible through the
public constructor and carries an empty message, contradicting the claim that
every `Err` result carries a non-empty message. -/
theorem commandResult_error_empty_msg_cex :
    (CommandResult.error "" : CommandResult Nat).errMsg = some ""
    ∧ String.length "" = 0 :=
  ⟨rfl, rfl⟩

/-- C4 (amended): results built by `ok` / `error` never simultaneously carry a
value and an error, and an `Err` built by `error(m)` carries exactly the
message `m` — which is non-empty only when the supplied message is. -/
theorem commandResult_ctor_invariant {T : Type} (v : Option T) (m : String) :
    (CommandResult.ok v).errMsg = none
    ∧ (CommandResult.error m : CommandResult T).value = none
    ∧ (CommandResult.error m : CommandResult T).errMsg = some m :=
  ⟨rfl, rfl, rfl⟩

/-! ## ConfigManager (src/kafka_cli/core/config_manager.py)

Python dictionaries (the global config document, profile documents) are
embedded as association lists over `String` keys.  The filesystem the
manager reads and writes is embedded as explicit state: one YAML file per
profile name plus the global `config.yaml` document.  YAML serialisation
round-trips structured documents, so a saved document is stored as itself;
a file whose text parses to `None` (empty file, `null`) and a file whose
text fails to parse are distinguished constructors. -/

/-- A scalar value inside the global config document (`default_profile` is a
string or `None`; the claims use only these shapes). -/
inductive CVal where
  | vnull
  | vstr (s : String)
deriving DecidableEq

/-- A Python dict embedded as an association list (insertion ordered). -/
abbrev CDoc := List (String × CVal)

/-- Python `d[k]` / `d.get(k)`: first binding of `k`. -/
def lookupKey {α : Type} : List (String × α) → String → Option α
  | [], _ => none
  | (k0, v0) :: rest, k => if k0 = k then some v0 else lookupKey rest k

/-- Python `d[k] = v`: replace the binding in place, else append — matches
dict insertion-order semantics. -/
def setKey {α : Type} : List (String × α) → String → α → List (String × α)
  | [], k, v => [(k, v)]
  | (k0, v0) :: rest, k, v =>
    if k0 = k then (k0, v) :: rest else (k0, v0) :: setKey rest k v

/-- Embeds `os.remove` on the file of a profile name: drop its binding. -/
def removeKey {α : Type} : List (String × α) → String → List (String × α)
  | [], _ => []
  | (k0, v0) :: rest, k =>
    if k0 = k then removeKey rest k else (k0, v0) :: removeKey rest k

/-- Content of one persisted profile file: `yaml od` when `yaml.safe_load`
returns `od` (`none` for an empty/`null` file), `malformed` when it raises
`YAMLError`. -/
inductive ProfileFile where
  | yaml (d : Option CDoc)
  | malformed
deriving DecidableEq

/-- State of the `ConfigManager` singleton together with its directory tree:
the global config document and the profile files keyed by profile name. -/
structure ConfigState where
  config : CDoc
  profiles : List (String × ProfileFile)
deriving DecidableEq

/-- Embeds `dict.update(updates)`: apply each top-level key of `updates` in order. -/
def dictUpdate (d updates : CDoc) : CDoc :=
  updates.foldl (fun acc kv => setKey acc kv.1 kv.2) d

/-- Embeds `update_config(updates)`: `self._config.update(updates)` then
`save_config()` (persistence modeled as succeeding, returning `True`). -/
def update_config (st : ConfigState) (updates : CDoc) : Bool × ConfigState :=
  (true, { st with config := dictUpdate st.config updates })

/-- Embeds `get_default_profile()`: `self.get_config().get("default_profile")`,
absent when the key is missing or `None`. -/
def get_default_profile (st : ConfigState) : Option String :=
  match lookupKey st.config "default_profile" with
  | some (CVal.vstr s) => some s
  | _ => none

/-- Embeds `set_default_profile(name)`: `update_config({"default_profile": name})`. -/
def set_default_profile (st : ConfigState) (name : Option String) : Bool × ConfigState :=
  update_config st [("default_profile",
    match name with
    | some s => CVal.vstr s
    | none => CVal.vnull)]

/-- Embeds `list_profiles()`: names of the `.yaml` files in the profiles directory. -/
def list_profiles (st : ConfigState) : List String :=
  st.profiles.map Prod.fst

/-- Name resolution shared by `load_profile` / `save_profile`: an explicit
name wins, else the default-profile pointer. -/
def resolveProfileName (st : ConfigState) (name : Option String) : Option String :=
  match name with
  | some s => some s
  | none => get_default_profile st

/-- Embeds `load_profile(profile_name)`: resolve the name (absent default → `None`);
missing file → `None`; `yaml.safe_load` result `profile_data` → return
`profile_data or {}`; `YAMLError` (reported to the handler) → `None`. -/
def load_profile (st : ConfigState) (name : Option String) : Option CDoc :=
  match resolveProfileName st name with
  | none => none
  | some p =>
    match lookupKey st.profiles p with
    | none => none
    | some (ProfileFile.yaml od) => some (od.getD [])
    | some ProfileFile.malformed => none

/-- Embeds `save_profile(profile_data, profile_name)`: resolve the name (absent →
`False` plus a Configuration error); else a full overwrite of the file at
that name (I/O modeled as succeeding). -/
def save_profile (st : ConfigState) (profile_data : CDoc) (name : Option String) :
    Bool × ConfigState :=
  match resolveProfileName st name with
  | none => (false, st)
  | some p => (true, { st with profiles := setKey st.profiles p (ProfileFile.yaml (some profile_data)) })

/-- Embeds `delete_profile(profile_name)`: `False` when the file is absent; else
`os.remove` (its success given by the oracle `removeOk`; on failure the
exception is handled and `False` returned with nothing else touched), then
clear the default pointer when it pointed at the deleted name. -/
def delete_profile (st : ConfigState) (name : String) (removeOk : Bool) :
    Bool × ConfigState :=
  match lookupKey st.profiles name with
  | none => (false, st)
  | some _ =>
    if removeOk then
      let st1 : ConfigState := { st with profiles := removeKey st.profiles name }
      if get_default_profile st1 = some name then
        (true, (set_default_profile st1 none).2)
      else
        (true, st1)
    else
      (false, st)

/-! ### Association-list lemmas shared by the store theorems -/

theorem lookupKey_setKey_self {α : Type} (l : List (String × α)) (k : String) (v : α) :
    lookupKey (setKey l k v) k = some v := by
  induction l with
  | nil => simp [setKey, lookupKey]
  | cons hd tl ih =>
    obtain ⟨k0, v0⟩ := hd
    by_cases h : k0 = k
    · simp [setKey, lookupKey, h]
    · simp [setKey, lookupKey, h, ih]

theorem lookupKey_setKey_ne {α : Type} (l : List (String × α)) (k k' : String) (v : α)
    (h : k' ≠ k) : lookupKey (setKey l k v) k' = lookupKey l k' := by
  induction l with
  | nil => simp [setKey, lookupKey, Ne.symm h]
  | cons hd tl ih =>
    obtain ⟨k0, v0⟩ := hd
    by_cases h0 : k0 = k
    · subst h0
      simp [setKey, lookupKey, Ne.symm h]
    · by_cases h1 : k0 = k'
      · simp [setKey, lookupKey, h0, h1, h]
      · simp [setKey, lookupKey, h0, h1, ih]

theorem lookupKey_removeKey_self {α : Type} (l : List (String × α)) (k : String) :
    lookupKey (removeKey l k) k = none := by
  induction l with
  | nil => simp [removeKey, lookupKey]
  | cons hd tl ih =>
    obtain ⟨k0, v0⟩ := hd
    by_cases h : k0 = k
    · simp [removeKey, h, ih]
    · simp [removeKey, lookupKey, h, ih]

theorem not_mem_map_fst_removeKey {α : Type} (l : List (String × α)) (k : String) :
    k ∉ (removeKey l k).map Prod.fst := by
  induction l with
  | nil => simp [removeKey]
  | cons hd tl ih =>
    obtain ⟨k0, v0⟩ := hd
    by_cases h : k0 = k
    · simpa [removeKey, h] using ih
    · simp [removeKey, h, ih]
      exact fun he => h he.symm

theorem lookupKey_dictUpdate_not_mem (d u : CDoc) (k : String)
    (h : k ∉ u.map Prod.fst) : lookupKey (dictUpdate d u) k = lookupKey d k := by
  induction u generalizing d with
  | nil => rfl
  | cons kv rest ih =>
    obtain ⟨k1, v1⟩ := kv
    simp only [List.map_cons, List.mem_cons, not_or] at h
    have hstep : dictUpdate d ((k1, v1) :: rest) = dictUpdate (setKey d k1 v1) rest := rfl
    rw [hstep, ih _ h.2, lookupKey_setKey_ne _ _ _ _ h.1]

/-! ### Store theorems -/

/-- C6: for every profile name P and document D, `save_profile(D, P)` followed
by `load_profile(P)` returns a document equal to D. -/
theorem save_profile_load_profile_roundtrip (st : ConfigState) (D : CDoc) (P : String) :
    load_profile (save_profile st D (some P)).2 (some P) = some D := by
  simp [save_profile, load_profile, resolveProfileName, lookupKey_setKey_self]

/-- C7: after `delete_profile(P)` succeeds, `load_profile(P)` returns absent,
`list_profiles()` no longer contains P, and if P was the default profile,
`get_default_profile()` returns absent afterward. -/
theorem delete_profile_success_spec (st : ConfigState) (P : String) (rOk : Bool)
    (h : (delete_profile st P rOk).1 = true) :
    load_profile (delete_profile st P rOk).2 (some P) = none
    ∧ P ∉ list_profiles (delete_profile st P rOk).2
    ∧ (get_default_profile st = some P →
        get_default_profile (delete_profile st P rOk).2 = none) := by
  cases hl : lookupKey st.profiles P with
  | none => simp [delete_profile, hl] at h
  | some pf =>
    cases rOk with
    | false => simp [delete_profile, hl] at h
    | true =>
      by_cases hd :
          get_default_profile ({ st with profiles := removeKey st.profiles P } : ConfigState)
            = some P
      · refine ⟨?_, ?_, fun _ => ?_⟩
        · simp [delete_profile, hl, hd, load_profile, resolveProfileName, set_default_profile,
            update_config, lookupKey_removeKey_self]
        · simpa [delete_profile, hl, hd, list_profiles, set_default_profile, update_config]
            using not_mem_map_fst_removeKey st.profiles P
        · simp only [delete_profile, hl, hd, set_default_profile, update_config,
            dictUpdate, if_true, List.foldl]
          simp [get_default_profile, lookupKey_setKey_self]
      · refine ⟨?_, ?_, fun hdp => absurd hdp hd⟩
        · simp [delete_profile, hl, hd, load_profile, resolveProfileName,
            lookupKey_removeKey_self]
        · simpa [delete_profile, hl, hd, list_profiles]
            using not_mem_map_fst_removeKey st.profiles P

/-- Witness for C7: delete the default profile "p" from a concrete store. -/
theorem delete_profile_success_witness :
    load_profile (delete_profile ⟨[("default_profile", CVal.vstr "p")],
        [("p", ProfileFile.yaml (some []))]⟩ "p" true).2 (some "p") = none
    ∧ "p" ∉ list_profiles (delete_profile ⟨[("default_profile", CVal.vstr "p")],
        [("p", ProfileFile.yaml (some []))]⟩ "p" true).2
    ∧ (get_default_profile ⟨[("default_profile", CVal.vstr "p")],
          [("p", ProfileFile.yaml (some []))]⟩ = some "p" →
        get_default_profile (delete_profile ⟨[("default_profile", CVal.vstr "p")],
          [("p", ProfileFile.yaml (some []))]⟩ "p" true).2 = none) :=
  delete_profile_success_spec
    ⟨[("default_profile", CVal.vstr "p")], [("p", ProfileFile.yaml (some []))]⟩ "p" true
    (by decide)

/-- C8: `update_config` applies only the top-level keys of its argument, each
fully replacing the value at that key, and leaves every other top-level key
unchanged; in particular the `default_profile` scenario of the spec. -/
theorem update_config_shallow_merge_spec (st : ConfigState) (d u : CDoc)
    (k k0 : String) (v : CVal) :
    get_default_profile (update_config st [("default_profile", CVal.vstr "x")]).2 = some "x"
    ∧ get_default_profile (update_config
        (update_config st [("default_profile", CVal.vstr "x")]).2
        [("other", CVal.vstr "y")]).2 = some "x"
    ∧ (k ∉ u.map Prod.fst → lookupKey (dictUpdate d u) k = lookupKey d k)
    ∧ lookupKey (dictUpdate d [(k0, v)]) k0 = some v := by
  refine ⟨?_, ?_, lookupKey_dictUpdate_not_mem d u k, ?_⟩
  · simp [update_config, dictUpdate, get_default_profile, lookupKey_setKey_self]
  · have h2 : lookupKey (setKey (setKey st.config "default_profile" (CVal.vstr "x"))
        "other" (CVal.vstr "y")) "default_profile"
        = lookupKey (setKey st.config "default_profile" (CVal.vstr "x")) "default_profile" :=
      lookupKey_setKey_ne _ "other" "default_profile" _ (by decide)
    simp [update_config, dictUpdate, get_default_profile, h2, lookupKey_setKey_self]
  · simp [dictUpdate, lookupKey_setKey_self]

/-- Witness for C8 on a concrete store and concrete documents. -/
theorem update_config_shallow_merge_witness :
    get_default_profile (update_config ⟨[], []⟩ [("default_profile", CVal.vstr "x")]).2 = some "x"
    ∧ get_default_profile (update_config
        (update_config ⟨[], []⟩ [("default_profile", CVal.vstr "x")]).2
        [("other", CVal.vstr "y")]).2 = some "x"
    ∧ lookupKey (dictUpdate [("a", CVal.vnull)] [("b", CVal.vstr "y")]) "a"
        = lookupKey [("a", CVal.vnull)] "a"
    ∧ lookupKey (dictUpdate [("a", CVal.vnull)] [("z", CVal.vstr "w")]) "z"
        = some (CVal.vstr "w") := by
  obtain ⟨h1, h2, h3, h4⟩ := update_config_shallow_merge_spec ⟨[], []⟩
    [("a", CVal.vnull)] [("b", CVal.vstr "y")] "a" "z" (CVal.vstr "w")
  exact ⟨h1, h2, h3 (by decide), h4⟩

/-- C9: a profile file that exists but parses to empty/null loads as an empty
document (not absent); a named load is absent exactly when the file is
missing or malformed; and loading after saving an empty document is
indistinguishable from loading a null-content file. -/
theorem load_profile_null_content_spec (st : ConfigState) (P : String) :
    (lookupKey st.profiles P = some (ProfileFile.yaml none) →
        load_profile st (some P) = some [])
    ∧ (load_profile st (some P) = none ↔
        lookupKey st.profiles P = none
        ∨ lookupKey st.profiles P = some ProfileFile.malformed)
    ∧ load_profile (save_profile st [] (some P)).2 (some P) = some [] := by
  refine ⟨fun h => ?_, ?_, ?_⟩
  · simp [load_profile, resolveProfileName, h]
  · cases hl : lookupKey st.profiles P with
    | none => simp [load_profile, resolveProfileName, hl]
    | some pf =>
      cases pf with
      | yaml od => simp [load_profile, resolveProfileName, hl]
      | malformed => simp [load_profile, resolveProfileName, hl]
  · simp [save_profile, load_profile, resolveProfileName, lookupKey_setKey_self]

/-- Witness for C9 on a concrete store holding a null-content profile file. -/
theorem load_profile_null_content_witness :
    load_profile ⟨[], [("e", ProfileFile.yaml none)]⟩ (some "e") = some []
    ∧ (load_profile ⟨[], [("e", ProfileFile.yaml none)]⟩ (some "q") = none ↔
        lookupKey [("e", ProfileFile.yaml none)] "q" = none
        ∨ lookupKey [("e", ProfileFile.yaml none)] "q" = some ProfileFile.malformed)
    ∧ load_profile (save_profile ⟨[], [("e", ProfileFile.yaml none)]⟩ [] (some "p")).2
        (some "p") = some [] :=
  ⟨(load_profile_null_content_spec ⟨[], [("e", ProfileFile.yaml none)]⟩ "e").1 (by decide),
   (load_profile_null_content_spec ⟨[], [("e", ProfileFile.yaml none)]⟩ "q").2.1,
   (load_profile_null_content_spec ⟨[], [("e", ProfileFile.yaml none)]⟩ "p").2.2⟩

/-- C10: whenever `delete_profile(P)` returns false — absent file or failed
removal — the store state is unchanged, so the default-profile pointer keeps
its previous value. -/
theorem delete_profile_failure_frame (st : ConfigState) (P : String) (rOk : Bool)
    (h : (delete_profile st P rOk).1 = false) :
    (delete_profile st P rOk).2 = st
    ∧ get_default_profile (delete_profile st P rOk).2 = get_default_profile st := by
  cases hl : lookupKey st.profiles P with
  | none => exact ⟨by simp [delete_profile, hl], by simp [delete_profile, hl]⟩
  | some pf =>
    cases rOk with
    | false => exact ⟨by simp [delete_profile, hl], by simp [delete_profile, hl]⟩
    | true =>
      by_cases hd :
          get_default_profile ({ st with profiles := removeKey st.profiles P } : ConfigState)
            = some P
      · simp [delete_profile, hl, hd] at h
      · simp [delete_profile, hl, hd] at h

/-- Witness for C10: deleting a non-existent profile from the empty store. -/
theorem delete_profile_failure_frame_witness :
    (delete_profile ⟨[], []⟩ "q" true).2 = (⟨[], []⟩ : ConfigState)
    ∧ get_default_profile (delete_profile ⟨[], []⟩ "q" true).2
        = get_default_profile ⟨[], []⟩ :=
  delete_profile_failure_frame ⟨[], []⟩ "q" true (by decide)

/-! ## ErrorHandler (src/kafka_cli/core/errors.py)

The handler keeps one observer list per severity plus one error counter per
severity.  Registering with `severity=None` appends the observer to all four
lists, so notifying the list of the error's severity reaches both the
severity-specific and the "all" subscribers, interleaved in registration
order.  Observers are opaque callbacks: the embedding is parametric in their
type and `handle` returns the list of observers it invokes, in order,
together with the exit the built-in presentation policy raises (if any). -/

inductive ErrorSeverity where
  | info
  | warning
  | error
  | critical
deriving DecidableEq

/-- Embeds `KafkaCliError`: message, severity, optional code, ordered details,
optional help text, optional exit code. -/
structure KafkaCliError where
  message : String
  severity : ErrorSeverity
  code : Option Int
  details : List (String × String)
  help_text : Option String
  exit_code : Option Int

structure ErrorHandler (Obs : Type) where
  observers : ErrorSeverity → List Obs
  error_counts : ErrorSeverity → Nat

/-- The freshly constructed singleton: empty observer lists, zero counters. -/
def ErrorHandler.empty (Obs : Type) : ErrorHandler Obs :=
  ⟨fun _ => [], fun _ => 0⟩

/-- Embeds `register(observer, severity)`: append to the given severity's list, or
to every severity's list when no severity is given. -/
def ErrorHandler.register {Obs : Type} (h : ErrorHandler Obs) (obs : Obs)
    (severity : Option ErrorSeverity) : ErrorHandler Obs :=
  match severity with
  | some s =>
    { h with observers := fun t => if t = s then h.observers t ++ [obs] else h.observers t }
  | none =>
    { h with observers := fun t => h.observers t ++ [obs] }

/-- The built-in presentation policy after notification: INFO/WARNING never
exit; ERROR exits with `exit_code` when set; CRITICAL always exits, with
`exit_code` when set else 1. -/
def presentationExit (e : KafkaCliError) : Option Int :=
  match e.severity with
  | ErrorSeverity.info => none
  | ErrorSeverity.warning => none
  | ErrorSeverity.error => e.exit_code
  | ErrorSeverity.critical => some (e.exit_code.getD 1)

/-- Embeds `handle(error)`: increment the counter for `error.severity`, notify the
observers registered under that severity in list order, then apply the
presentation policy.  Returns the new state, the invoked observers in
invocation order, and the raised exit if any. -/
def ErrorHandler.handle {Obs : Type} (h : ErrorHandler Obs) (e : KafkaCliError) :
    ErrorHandler Obs × List Obs × Option Int :=
  ({ h with error_counts :=
      fun s => if s = e.severity then h.error_counts s + 1 else h.error_counts s },
   h.observers e.severity,
   presentationExit e)

/-- Does a registration targeting `sev` (`none` = all severities) reach
severity `s`? -/
def regTargets (sev : Option ErrorSeverity) (s : ErrorSeverity) : Bool :=
  match sev with
  | none => true
  | some s0 => decide (s = s0)

/-- Replay a sequence of `register` calls (observer, optional severity). -/
def applyRegs {Obs : Type} (h : ErrorHandler Obs)
    (regs : List (Obs × Option ErrorSeverity)) : ErrorHandler Obs :=
  regs.foldl (fun acc r => acc.register r.1 r.2) h

theorem applyRegs_observers {Obs : Type} (regs : List (Obs × Option ErrorSeverity))
    (h : ErrorHandler Obs) (s : ErrorSeverity) :
    (applyRegs h regs).observers s
      = h.observers s ++ (regs.filter (fun r => regTargets r.2 s)).map Prod.fst := by
  induction regs generalizing h with
  | nil => simp [applyRegs]
  | cons r rest ih =>
    obtain ⟨obs, sev⟩ := r
    have hstep : applyRegs h ((obs, sev) :: rest) = applyRegs (h.register obs sev) rest := rfl
    rw [hstep, ih]
    cases sev with
    | none => simp [ErrorHandler.register, regTargets, List.filter]
    | some s0 =>
      by_cases hs : s = s0
      · simp [ErrorHandler.register, regTargets, List.filter, hs]
      · simp [ErrorHandler.register, regTargets, List.filter, hs]

/-- C5: for a handler built by any sequence of registrations, `handle(e)`
increments the counter for `e.severity` by exactly one (leaving the other
counters unchanged) and invokes, in registration order, exactly the
subscribers registered for that severity or for all severities, once per
registration. -/
theorem errorHandler_handle_spec (Obs : Type)
    (regs : List (Obs × Option ErrorSeverity)) (e : KafkaCliError) (s : ErrorSeverity) :
    ((applyRegs (ErrorHandler.empty Obs) regs).handle e).1.error_counts s
      = (applyRegs (ErrorHandler.empty Obs) regs).error_counts s
        + (if s = e.severity then 1 else 0)
    ∧ ((applyRegs (ErrorHandler.empty Obs) regs).handle e).2.1
      = (regs.filter (fun r => regTargets r.2 e.severity)).map Prod.fst := by
  constructor
  · by_cases hs : s = e.severity
    · simp [ErrorHandler.handle, hs]
    · simp [ErrorHandler.handle, hs]
  · have hobs := applyRegs_observers regs (ErrorHandler.empty Obs) e.severity
    simpa [ErrorHandler.handle, ErrorHandler.empty] using hobs

/-! ## Prompt strategies, non-interactive behavior (src/kafka_cli/core/interactive.py)

Each strategy's `prompt` first runs its argument guards (select/multiselect
raise `CommandError` on an empty choice list before anything else), then
tests `is_interactive()`.  The functions below embed the code path taken
when `is_interactive()` is false — the only path the non-interactive
claims quantify over.  `raise typer.Exit(code=n)` is embedded as
`PromptOutcome.exit n`, `raise CommandError(msg)` as
`PromptOutcome.cmdError msg`, and a supplied-versus-absent keyword default
as an `Option`. -/

inductive PromptOutcome (α : Type) where
  | value (a : α)
  | exit (code : Nat)
  | cmdError (msg : String)
deriving DecidableEq

/-- Embeds `TextPromptStrategy.prompt`, non-interactive branch: return the default
when supplied, else `raise typer.Exit(code=1)`.  `multiline` is read but
unused on this path. -/
def textPromptNI (default : Option String) (multiline : Bool) : PromptOutcome String :=
  match default with
  | some d => PromptOutcome.value d
  | none => PromptOutcome.exit 1

/-- Embeds `SelectPromptStrategy.prompt`: raises `CommandError` when `choices` is
empty (before the interactivity check); non-interactively returns the
default when supplied, else the first choice, else `Exit(1)`. -/
def selectPromptNI (choices : List String) (default : Option String) : PromptOutcome String :=
  if choices.isEmpty then PromptOutcome.cmdError "No choices provided for select prompt"
  else
    match default with
    | some d => PromptOutcome.value d
    | none =>
      match choices with
      | c :: _ => PromptOutcome.value c
      | [] => PromptOutcome.exit 1

/-- Embeds `ConfirmPromptStrategy.prompt`: `default = kwargs.get("default", False)`;
non-interactively always returns that boolean (never exits). -/
def confirmPromptNI (default : Option Bool) : PromptOutcome Bool :=
  PromptOutcome.value (default.getD false)

/-- Embeds `MultiSelectPromptStrategy.prompt`: raises `CommandError` on empty
`choices`; non-interactively returns the default when truthy (non-empty),
else the first `min_selections` choices, else the empty list. -/
def multiselectPromptNI (choices : List String) (default : List String)
    (min_selections : Nat) : PromptOutcome (List String) :=
  if choices.isEmpty then PromptOutcome.cmdError "No choices provided for multiselect prompt"
  else
    match default with
    | _ :: _ => PromptOutcome.value default
    | [] =>
      if min_selections > 0 then PromptOutcome.value (choices.take min_selections)
      else PromptOutcome.value []

/-- Embeds `NumberPromptStrategy.prompt`, non-interactive branch: the default when
supplied, else `min_value` when supplied, else 0.  `max_value` is read but
unused on this path. -/
def numberPromptNI (default min_value max_value : Option Int) : PromptOutcome Int :=
  match default with
  | some d => PromptOutcome.value d
  | none =>
    match min_value with
    | some m => PromptOutcome.value m
    | none => PromptOutcome.value 0

/-- Embeds `PasswordPromptStrategy.prompt`, non-interactive branch: the default when
supplied, else `Exit(1)`.  The confirmation flag is unused on this path. -/
def passwordPromptNI (default : Option String) (confirm : Bool) : PromptOutcome String :=
  match default with
  | some d => PromptOutcome.value d
  | none => PromptOutcome.exit 1

/-- Embeds `PathPromptStrategy.prompt`, non-interactive branch: the default when
supplied, else `Exit(1)`.  The validation flags are unused on this path. -/
def pathPromptNI (default : Option String) (must_exist file_okay dir_okay : Bool) :
    PromptOutcome String :=
  match default with
  | some d => PromptOutcome.value d
  | none => PromptOutcome.exit 1

/-- C1 counterexample: the number strategy with no default in a
non-interactive environment returns the value 0 instead of failing with the
terminal-required exit, so the claimed shared fallback contract does not
hold for every strategy. -/
theorem prompt_nonInteractive_no_default_cex :
    numberPromptNI none none none = PromptOutcome.value 0
    ∧ numberPromptNI none none none ≠ PromptOutcome.exit 1
    ∧ confirmPromptNI none = PromptOutcome.value false
    ∧ selectPromptNI ["a", "b"] none = PromptOutcome.value "a"
    ∧ multiselectPromptNI ["a", "b"] [] 1 = PromptOutcome.value ["a"] := by
  refine ⟨rfl, ?_, rfl, by decide, by decide⟩
  decide

/-- C1 (amended): non-interactively, every strategy with a supplied default
returns it (select and multiselect additionally need a non-empty choice
list, and multiselect a non-empty default); with no default, text, password
and path fail with the fixed `Exit(1)`, while select returns the first
choice, confirm returns false, multiselect returns the first
`min_selections` choices (empty when none are required) and number returns
`min_value` when supplied, else 0. -/
theorem prompt_nonInteractive_fallback_spec (d : String) (b : Bool) (ml cf : Bool)
    (c : String) (cs : List String) (d0 : String) (ds : List String) (m : Nat)
    (n mi : Int) (mav : Option Int) (me fo dok : Bool) :
    textPromptNI (some d) ml = PromptOutcome.value d
    ∧ textPromptNI none ml = PromptOutcome.exit 1
    ∧ selectPromptNI (c :: cs) (some d) = PromptOutcome.value d
    ∧ selectPromptNI (c :: cs) none = PromptOutcome.value c
    ∧ confirmPromptNI (some b) = PromptOutcome.value b
    ∧ confirmPromptNI none = PromptOutcome.value false
    ∧ multiselectPromptNI (c :: cs) (d0 :: ds) m = PromptOutcome.value (d0 :: ds)
    ∧ multiselectPromptNI (c :: cs) [] m = PromptOutcome.value ((c :: cs).take m)
    ∧ numberPromptNI (some n) (some mi) mav = PromptOutcome.value n
    ∧ numberPromptNI none (some mi) mav = PromptOutcome.value mi
    ∧ numberPromptNI none none mav = PromptOutcome.value 0
    ∧ passwordPromptNI (some d) cf = PromptOutcome.value d
    ∧ passwordPromptNI none cf = PromptOutcome.exit 1
    ∧ pathPromptNI (some d) me fo dok = PromptOutcome.value d
    ∧ pathPromptNI none me fo dok = PromptOutcome.exit 1 := by
  refine ⟨rfl, rfl, ?_, ?_, rfl, rfl, ?_, ?_, rfl, rfl, rfl, rfl, rfl, rfl, rfl⟩
  · simp [selectPromptNI]
  · simp [selectPromptNI]
  · simp [multiselectPromptNI]
  · cases m with
    | zero => simp [multiselectPromptNI]
    | succ k => simp [multiselectPromptNI]
